import Mathlib

/-!
Verification of the graphiti database-adapter subsystem
(`graphiti_core/database/`): the `GraphDBInterface` contract, the
`Neo4jAdapter` and `SurrealDBAdapter` implementations, and the
`DatabaseFactory`.

Each adapter is modelled as an explicit state machine over its connection
handle (`driver` for Neo4j, `client` for SurrealDB), exactly mirroring the
Python source.  The external drivers are out of scope (the spec treats
them as external collaborators), so

* driver-level outcomes of `connect`'s probe / signin / use calls and of
  arbitrary pass-through `execute_query` calls are supplied as explicit
  oracle arguments;
* the fixed queries issued by `build_indices`, `clear_all_data`,
  `get_episodes` and `get_one_episode` are given their documented
  semantics over an explicit world state (episode store plus provisioned
  schema objects).
-/

namespace GraphitiDB

/-- Bound query parameters (`Dict[str, Any]` in the source), modelled as an
association list of string keys and values. -/
abbrev Params := List (String × String)

/-- Python `params = parameters or {}` (`neo4j_adapter.py` line 103,
`surrealdb_adapter.py` line 120): both `None` and the empty dict are falsy
and collapse to the empty dict. -/
def pyOrEmpty (p : Option Params) : Params :=
  match p with
  | none => []
  | some m => if m.isEmpty then [] else m

/-- An Episode record as returned by `get_episodes`/`get_one_episode`: an
attribute mapping with `id`, `created_at`, `title`, `summary`
(spec section 3; `created_at` timestamps modelled as naturals). -/
structure Episode where
  id : String
  created_at : Nat
  title : String
  summary : String
deriving DecidableEq

/-- The error taxonomy of spec section 7.  Every constructor carries the
message string the Python source puts into the raised exception
(`ConnectionError`, generic `Exception`, `ValueError` respectively). -/
inductive DBError where
  | notConnected (msg : String)
  | connectionFailure (msg : String)
  | queryExecutionFailure (msg : String)
  | unsupportedBackend (msg : String)
deriving DecidableEq

/-- A provisioned schema object: uniqueness constraint, not-null
constraint, secondary index, table declaration, or a typed field
declaration (the latter two only issued by the SurrealDB adapter). -/
inductive SchemaObject where
  | unique (label field : String)
  | notNull (label field : String)
  | index (label field : String)
  | table (name : String)
  | fieldDecl (label field ty : String)
deriving DecidableEq

/-- The table/label a schema object is attached to. -/
def SchemaObject.owner : SchemaObject → String
  | .unique l _ => l
  | .notNull l _ => l
  | .index l _ => l
  | .table n => n
  | .fieldDecl l _ _ => l

/-- Executing one idempotent schema statement (`CREATE ... IF NOT EXISTS`
for Neo4j; `DEFINE`, which define-or-replaces, for SurrealDB): the object
is added to the schema unless already present.  Neither form errors when
the object exists. -/
def addIfAbsent (s : List SchemaObject) (o : SchemaObject) : List SchemaObject :=
  if o ∈ s then s else s ++ [o]

/-- The schema objects provisioned by `Neo4jAdapter.build_indices`
(`neo4j_adapter.py` lines 126-147), in source statement order. -/
def neo4jSchemaObjects : List SchemaObject :=
  [ .unique "Episode" "id",
    .unique "Message" "id",
    .unique "Entity" "id",
    .notNull "Message" "timestamp",
    .notNull "Episode" "created_at",
    .index "Episode" "created_at",
    .index "Message" "timestamp",
    .index "Message" "role",
    .index "Entity" "type",
    .index "Entity" "name" ]

/-- The schema objects provisioned by `SurrealDBAdapter.build_indices`
(`surrealdb_adapter.py` lines 139-173), in source statement order.
`DEFINE INDEX <name> ON <T> FIELDS <f> UNIQUE` is recorded as a uniqueness
constraint on `(T, f)` and the plain form as a secondary index (the
SurrealDB index names `episode_id`, ... are administrative and dropped). -/
def surrealSchemaObjects : List SchemaObject :=
  [ .table "Episode",
    .table "Message",
    .table "Entity",
    .table "MENTIONS",
    .table "HAS_MESSAGE",
    .table "REFERS_TO",
    .fieldDecl "Episode" "id" "string",
    .fieldDecl "Episode" "created_at" "datetime",
    .fieldDecl "Episode" "title" "string",
    .fieldDecl "Episode" "summary" "string",
    .fieldDecl "Message" "id" "string",
    .fieldDecl "Message" "timestamp" "datetime",
    .fieldDecl "Message" "role" "string",
    .fieldDecl "Message" "content" "string",
    .fieldDecl "Entity" "id" "string",
    .fieldDecl "Entity" "type" "string",
    .fieldDecl "Entity" "name" "string",
    .fieldDecl "Entity" "properties" "object",
    .unique "Episode" "id",
    .index "Episode" "created_at",
    .unique "Message" "id",
    .index "Message" "timestamp",
    .index "Message" "role",
    .unique "Entity" "id",
    .index "Entity" "type",
    .index "Entity" "name" ]

/-- Uniqueness-constrained `(label, field)` pairs of a schema-object set. -/
def uniquePairs (s : List SchemaObject) : List (String × String) :=
  s.filterMap fun o =>
    match o with
    | .unique l f => some (l, f)
    | _ => none

/-- Not-null-constrained `(label, field)` pairs of a schema-object set. -/
def notNullPairs (s : List SchemaObject) : List (String × String) :=
  s.filterMap fun o =>
    match o with
    | .notNull l f => some (l, f)
    | _ => none

/-- Secondary-indexed `(label, field)` pairs of a schema-object set. -/
def indexPairs (s : List SchemaObject) : List (String × String) :=
  s.filterMap fun o =>
    match o with
    | .index l f => some (l, f)
    | _ => none

/-- `(label, field)` pairs carrying a typed field declaration. -/
def fieldDeclPairs (s : List SchemaObject) : List (String × String) :=
  s.filterMap fun o =>
    match o with
    | .fieldDecl l f _ => some (l, f)
    | _ => none

/-- Insert an episode into a list kept in `created_at`-descending order. -/
def insertByCreatedAtDesc (e : Episode) : List Episode → List Episode
  | [] => [e]
  | f :: rest =>
    if e.created_at ≤ f.created_at then f :: insertByCreatedAtDesc e rest
    else e :: f :: rest

/-- `ORDER BY created_at DESC`: sort episodes by `created_at` descending. -/
def sortByCreatedAtDesc (l : List Episode) : List Episode :=
  l.foldr insertByCreatedAtDesc []

/-- The native driver handle created by `AsyncGraphDatabase.driver(uri,
auth=(user, password))`.  Creating it performs no network round trip; it
records the connection parameters. -/
structure Neo4jDriver where
  uri : String
  user : String
  password : String
deriving DecidableEq

/-- A per-call Neo4j session, obtained from `driver.session()`. -/
structure Neo4jSession where
  driver : Neo4jDriver
deriving DecidableEq

/-- `Neo4jAdapter.__init__`: the one piece of adapter state,
`self.driver: Optional[AsyncDriver] = None`.  `driver = none` is the
Disconnected state of the contract's state machine. -/
structure Neo4jAdapter where
  driver : Option Neo4jDriver
deriving DecidableEq

/-- The observable Neo4j database state behind a connected adapter: the
stored Episode nodes and the provisioned schema objects.  (Other node
labels and relationships are not read by any adapter operation and are
elided.) -/
structure Neo4jWorld where
  episodes : List Episode
  schema : List SchemaObject
deriving DecidableEq

/-- `Neo4jAdapter.connect` (lines 36-50): assigns
`self.driver = AsyncGraphDatabase.driver(...)` and then probes the
connection with `RETURN 1`.  `probeError = some e` models the probe
raising a `DriverError` with message `e` (the only exception class the
source catches); on that path the source raises
`ConnectionError(f"Failed to connect to Neo4j: {e}")` *without* resetting
`self.driver`. -/
def Neo4jAdapter.connect (a : Neo4jAdapter) (uri user password : String)
    (probeError : Option String) : Except DBError Unit × Neo4jAdapter :=
  let a1 : Neo4jAdapter := { a with driver := some ⟨uri, user, password⟩ }
  match probeError with
  | none => (.ok (), a1)
  | some e => (.error (.connectionFailure ("Failed to connect to Neo4j: " ++ e)), a1)

/-- `Neo4jAdapter.close` (lines 52-56): `if self.driver:` close it and set
`self.driver = None`; a no-op when already disconnected. -/
def Neo4jAdapter.close (a : Neo4jAdapter) : Except DBError Unit × Neo4jAdapter :=
  match a.driver with
  | some _ => (.ok (), { a with driver := none })
  | none => (.ok (), a)

/-- `Neo4jAdapter.get_driver` (lines 58-69). -/
def Neo4jAdapter.get_driver (a : Neo4jAdapter) :
    Except DBError Neo4jDriver × Neo4jAdapter :=
  match a.driver with
  | none => (.error (.notConnected "Not connected to Neo4j"), a)
  | some d => (.ok d, a)

/-- `Neo4jAdapter.get_session` (lines 71-82): returns a fresh
`self.driver.session()`. -/
def Neo4jAdapter.get_session (a : Neo4jAdapter) :
    Except DBError Neo4jSession × Neo4jAdapter :=
  match a.driver with
  | none => (.error (.notConnected "Not connected to Neo4j"), a)
  | some d => (.ok ⟨d⟩, a)

/-- `Neo4jAdapter.execute_query` (lines 84-108).  The query text is passed
through verbatim; `backend` is the oracle giving the driver's outcome for
running it with the bound parameters (its data effects are outside the
adapter and not modelled).  A driver failure with message `e` is re-raised
as `Exception(f"Error executing Neo4j query: {e}")`. -/
def Neo4jAdapter.execute_query {ρ : Type} (a : Neo4jAdapter) (query : String)
    (parameters : Option Params) (backend : String → Params → Except String ρ) :
    Except DBError ρ × Neo4jAdapter :=
  match a.driver with
  | none => (.error (.notConnected "Not connected to Neo4j"), a)
  | some _ =>
    match backend query (pyOrEmpty parameters) with
    | .ok r => (.ok r, a)
    | .error e =>
      (.error (.queryExecutionFailure ("Error executing Neo4j query: " ++ e)), a)

/-- `Neo4jAdapter.build_indices` (lines 110-147): when `delete_existing`,
`CALL apoc.schema.assert(..., true)` first drops every constraint and
index; then the ten `CREATE ... IF NOT EXISTS` statements are issued in
order.  `IF NOT EXISTS` never errors on an existing object. -/
def Neo4jAdapter.build_indices (a : Neo4jAdapter) (w : Neo4jWorld)
    (delete_existing : Bool) : Except DBError Unit × Neo4jAdapter × Neo4jWorld :=
  match a.driver with
  | none => (.error (.notConnected "Not connected to Neo4j"), a, w)
  | some _ =>
    let s0 := if delete_existing then [] else w.schema
    (.ok (), a, { w with schema := neo4jSchemaObjects.foldl addIfAbsent s0 })

/-- `Neo4jAdapter.clear_all_data` (lines 149-155):
`MATCH (n) DETACH DELETE n` removes every node and relationship; the
provisioned schema is untouched. -/
def Neo4jAdapter.clear_all_data (a : Neo4jAdapter) (w : Neo4jWorld) :
    Except DBError Unit × Neo4jAdapter × Neo4jWorld :=
  match a.driver with
  | none => (.error (.notConnected "Not connected to Neo4j"), a, w)
  | some _ => (.ok (), a, { w with episodes := [] })

/-- The result rows of `MATCH (e:Episode) RETURN e ORDER BY e.created_at
DESC` as consumed via `result.values()`: one single-cell row per stored
episode, in `created_at`-descending order. -/
def neo4jEpisodeRows (w : Neo4jWorld) : List (List (Option Episode)) :=
  (sortByCreatedAtDesc w.episodes).map fun e => [some e]

/-- The row-collection loop of `Neo4jAdapter.get_episodes` (lines
176-179): `if record and record[0]: episodes.append(dict(record[0]))` —
skip empty rows and rows whose first cell is falsy. -/
def collectEpisodeRows (rows : List (List (Option Episode))) : List Episode :=
  rows.foldl
    (fun acc row =>
      match row with
      | some e :: _ => acc ++ [e]
      | _ => acc)
    []

/-- `Neo4jAdapter.get_episodes` (lines 157-180). -/
def Neo4jAdapter.get_episodes (a : Neo4jAdapter) (w : Neo4jWorld) :
    Except DBError (List Episode) × Neo4jAdapter :=
  match a.driver with
  | none => (.error (.notConnected "Not connected to Neo4j"), a)
  | some _ => (.ok (collectEpisodeRows (neo4jEpisodeRows w)), a)

/-- The result rows of `MATCH (e:Episode {id: $episode_id}) RETURN e`: one
single-cell row per stored episode whose `id` matches. -/
def neo4jOneEpisodeRows (w : Neo4jWorld) (episode_id : String) :
    List (List (Option Episode)) :=
  ((w.episodes.filter fun e => e.id == episode_id).map fun e => [some e])

/-- `Neo4jAdapter.get_one_episode` (lines 182-206): `if records and
records[0] and records[0][0]: return dict(records[0][0])`, else `None`. -/
def Neo4jAdapter.get_one_episode (a : Neo4jAdapter) (w : Neo4jWorld)
    (episode_id : String) : Except DBError (Option Episode) × Neo4jAdapter :=
  match a.driver with
  | none => (.error (.notConnected "Not connected to Neo4j"), a)
  | some _ =>
    match neo4jOneEpisodeRows w episode_id with
    | (some e :: _) :: _ => (.ok (some e), a)
    | _ => (.ok none, a)

/-- The persistent native client created by `Surreal(uri)`.  Creating it
performs no network round trip; authentication happens in `signin`. -/
structure SurrealClient where
  uri : String
deriving DecidableEq

/-- `SurrealDBAdapter.__init__`: `self.client`, `self.namespace`,
`self.database`, all initially `None` (`namespace` is renamed `nspace`
here because it is a Lean keyword).  `client = none` is the Disconnected
state. -/
structure SurrealAdapter where
  client : Option SurrealClient
  nspace : Option String
  database : Option String
deriving DecidableEq

/-- One per-statement outcome object of SurrealDB's result envelope; its
`result` key (an array of records) may be absent, which the source reads
with `.get('result', [])`. -/
structure StmtOutcome where
  result : Option (List Episode)
deriving DecidableEq

/-- SurrealDB's per-statement result envelope: a list of outcome
objects, one per statement in the submitted query. -/
abbrev SurrealEnvelope := List StmtOutcome

/-- The observable SurrealDB database state behind a connected adapter:
the `Episode` table (absent once removed) and the provisioned schema
objects.  The `Message`, `Entity` and relationship tables are not read by
any adapter operation and are elided. -/
structure SurrealWorld where
  episodeTable : Option (List Episode)
  schema : List SchemaObject
deriving DecidableEq

/-- `SurrealDBAdapter.connect` (lines 20-67): stores the namespace and
database, assigns `self.client = Surreal(uri)`, then signs in and selects
the scope.  `signinError`/`useError` model those two driver calls raising
with the given message; the inner handler wraps the message in
`ConnectionError(f"Failed to connect to SurrealDB: ...")` and the outer
`except` wraps that `ConnectionError` once more, hence the doubled
message prefix.  On either failure `self.client` is *not* reset. -/
def SurrealAdapter.connect (a : SurrealAdapter) (uri user password : String)
    (nspace database : String) (signinError useError : Option String) :
    Except DBError Unit × SurrealAdapter :=
  let a1 : SurrealAdapter :=
    { a with
      nspace := some nspace
      database := some database
      client := some ⟨uri⟩ }
  match signinError with
  | some e =>
    (.error (.connectionFailure
      ("Failed to connect to SurrealDB: Failed to connect to SurrealDB: " ++ e)), a1)
  | none =>
    match useError with
    | some e =>
      (.error (.connectionFailure
        ("Failed to connect to SurrealDB: Failed to connect to SurrealDB: " ++ e)), a1)
    | none => (.ok (), a1)

/-- `SurrealDBAdapter.close` (lines 69-73): `if self.client:` close it and
set `self.client = None`; a no-op when already disconnected. -/
def SurrealAdapter.close (a : SurrealAdapter) : Except DBError Unit × SurrealAdapter :=
  match a.client with
  | some _ => (.ok (), { a with client := none })
  | none => (.ok (), a)

/-- `SurrealDBAdapter.get_driver` (lines 75-86). -/
def SurrealAdapter.get_driver (a : SurrealAdapter) :
    Except DBError SurrealClient × SurrealAdapter :=
  match a.client with
  | none => (.error (.notConnected "Not connected to SurrealDB"), a)
  | some c => (.ok c, a)

/-- `SurrealDBAdapter.get_session` (lines 88-99): returns the same shared
client. -/
def SurrealAdapter.get_session (a : SurrealAdapter) :
    Except DBError SurrealClient × SurrealAdapter :=
  match a.client with
  | none => (.error (.notConnected "Not connected to SurrealDB"), a)
  | some c => (.ok c, a)

/-- `SurrealDBAdapter.execute_query` (lines 101-127).  `backend` is the
oracle giving the SDK outcome of `self.client.query(query, params)` (after
the awaitable normalization, which is invisible to the result); a raised
SDK error with message `e` is re-raised as
`Exception(f"Error executing SurrealDB query: {e}")`. -/
def SurrealAdapter.execute_query {ρ : Type} (a : SurrealAdapter) (query : String)
    (parameters : Option Params) (backend : String → Params → Except String ρ) :
    Except DBError ρ × SurrealAdapter :=
  match a.client with
  | none => (.error (.notConnected "Not connected to SurrealDB"), a)
  | some _ =>
    match backend query (pyOrEmpty parameters) with
    | .ok r => (.ok r, a)
    | .error e =>
      (.error (.queryExecutionFailure ("Error executing SurrealDB query: " ++ e)), a)

/-- The six tables dropped by `SurrealDBAdapter.clear_all_data`
(line 191). -/
def droppedTables : List String :=
  ["Episode", "Message", "Entity", "MENTIONS", "HAS_MESSAGE", "REFERS_TO"]

/-- `REMOVE TABLE` drops a table together with the field and index
definitions declared on it: every schema object owned by one of the six
dropped tables disappears. -/
def removeTablesSchema (s : List SchemaObject) : List SchemaObject :=
  s.filter fun o => !droppedTables.contains o.owner

/-- `SurrealDBAdapter.clear_all_data` (lines 185-194): issues
`REMOVE TABLE <t>` for each of the six tables.  Per-statement errors are
reported inside the result envelope, which this method discards, so the
call itself does not raise. -/
def SurrealAdapter.clear_all_data (a : SurrealAdapter) (v : SurrealWorld) :
    Except DBError Unit × SurrealAdapter × SurrealWorld :=
  match a.client with
  | none => (.error (.notConnected "Not connected to SurrealDB"), a, v)
  | some _ =>
    (.ok (), a, { episodeTable := none, schema := removeTablesSchema v.schema })

/-- `SurrealDBAdapter.build_indices` (lines 129-183): when
`delete_existing`, first `clear_all_data`; then the twenty-six `DEFINE`
statements are issued in order.  `DEFINE` define-or-replaces, so the
`DEFINE TABLE Episode` statement (re)creates the Episode table, keeping
any existing rows, and repeated definitions leave the schema unchanged;
result envelopes are discarded, so the call does not raise. -/
def SurrealAdapter.build_indices (a : SurrealAdapter) (v : SurrealWorld)
    (delete_existing : Bool) : Except DBError Unit × SurrealAdapter × SurrealWorld :=
  match a.client with
  | none => (.error (.notConnected "Not connected to SurrealDB"), a, v)
  | some _ =>
    let v1 :=
      if delete_existing then
        { episodeTable := none, schema := removeTablesSchema v.schema : SurrealWorld }
      else v
    (.ok (), a,
      { episodeTable := some (v1.episodeTable.getD []),
        schema := surrealSchemaObjects.foldl addIfAbsent v1.schema })

/-- The envelope returned by `SELECT * FROM Episode ORDER BY created_at
DESC`: one outcome object whose result array holds the episodes in
`created_at`-descending order.  Selecting from an absent table yields an
empty array, not an error. -/
def surrealSelectEpisodes (v : SurrealWorld) : SurrealEnvelope :=
  [⟨some (sortByCreatedAtDesc (v.episodeTable.getD []))⟩]

/-- The unwrap step of `SurrealDBAdapter.get_episodes` (lines 215-219):
`result[0].get('result', [])` when the envelope is a non-empty list,
else `[]`. -/
def unwrapEpisodes (envelope : SurrealEnvelope) : List Episode :=
  match envelope with
  | [] => []
  | first :: _ => first.result.getD []

/-- `SurrealDBAdapter.get_episodes` (lines 196-219). -/
def SurrealAdapter.get_episodes (a : SurrealAdapter) (v : SurrealWorld) :
    Except DBError (List Episode) × SurrealAdapter :=
  match a.client with
  | none => (.error (.notConnected "Not connected to SurrealDB"), a)
  | some _ => (.ok (unwrapEpisodes (surrealSelectEpisodes v)), a)

/-- The envelope returned by `SELECT * FROM Episode WHERE id = $episode_id
LIMIT 1`: one outcome object whose result array holds at most one matching
episode. -/
def surrealSelectOneEpisode (v : SurrealWorld) (episode_id : String) :
    SurrealEnvelope :=
  [⟨some (((v.episodeTable.getD []).filter fun e => e.id == episode_id).take 1)⟩]

/-- The unwrap step of `SurrealDBAdapter.get_one_episode` (lines 245-250):
empty envelope, missing `result` key and empty inner array all fall
through to `None`; otherwise the first record is returned. -/
def unwrapOneEpisode (envelope : SurrealEnvelope) : Option Episode :=
  match envelope with
  | [] => none
  | first :: _ =>
    match first.result.getD [] with
    | [] => none
    | e :: _ => some e

/-- `SurrealDBAdapter.get_one_episode` (lines 221-250). -/
def SurrealAdapter.get_one_episode (a : SurrealAdapter) (v : SurrealWorld)
    (episode_id : String) : Except DBError (Option Episode) × SurrealAdapter :=
  match a.client with
  | none => (.error (.notConnected "Not connected to SurrealDB"), a)
  | some _ => (.ok (unwrapOneEpisode (surrealSelectOneEpisode v episode_id)), a)

/-- A constructed, not-yet-connected adapter instance as returned by the
factory. -/
inductive AdapterInstance where
  | neo4j (a : Neo4jAdapter)
  | surreal (a : SurrealAdapter)
deriving DecidableEq

/-- An adapter type descriptor as returned by
`DatabaseFactory.get_adapter_class`. -/
inductive AdapterClass where
  | neo4jClass
  | surrealClass
deriving DecidableEq

/-- `DatabaseFactory.create_db_adapter` (`db_factory.py` lines 24-42).
`DatabaseType` is a `str` enum whose members equal their lowercase value
strings, so the `db_type == DatabaseType.NEO4J` comparisons are plain
string comparisons against `"neo4j"` / `"surrealdb"`; any other string
falls through to `ValueError(f"Unsupported database type: {db_type}")`. -/
def DatabaseFactory.create_db_adapter (db_type : String) :
    Except DBError AdapterInstance :=
  if db_type = "neo4j" then .ok (.neo4j ⟨none⟩)
  else if db_type = "surrealdb" then .ok (.surreal ⟨none, none, none⟩)
  else .error (.unsupportedBackend ("Unsupported database type: " ++ db_type))

/-- `DatabaseFactory.get_adapter_class` (`db_factory.py` lines 44-62). -/
def DatabaseFactory.get_adapter_class (db_type : String) :
    Except DBError AdapterClass :=
  if db_type = "neo4j" then .ok .neo4jClass
  else if db_type = "surrealdb" then .ok .surrealClass
  else .error (.unsupportedBackend ("Unsupported database type: " ++ db_type))

/-- A concrete Neo4j driver handle used by witness theorems. -/
def testDriver : Neo4jDriver :=
  ⟨"bolt://localhost:7687", "neo4j", "password"⟩

/-- A concrete SurrealDB client handle used by witness theorems. -/
def testClient : SurrealClient :=
  ⟨"ws://localhost:8001/rpc"⟩

/-- A concrete episode record used by witness theorems. -/
def testEpisode : Episode :=
  ⟨"ep-1", 1, "t", "s"⟩

theorem addIfAbsent_mem_self (s : List SchemaObject) (o : SchemaObject) :
    o ∈ addIfAbsent s o := by
  by_cases h : o ∈ s
  · simp [addIfAbsent, h]
  · simp [addIfAbsent, h]

theorem addIfAbsent_mem_of_mem (s : List SchemaObject) (o x : SchemaObject)
    (h : x ∈ s) : x ∈ addIfAbsent s o := by
  by_cases h2 : o ∈ s <;> simp [addIfAbsent, h2, h]

theorem foldl_addIfAbsent_mem_of_mem (L : List SchemaObject)
    (s : List SchemaObject) (x : SchemaObject) (h : x ∈ s) :
    x ∈ L.foldl addIfAbsent s := by
  induction L generalizing s with
  | nil => simpa using h
  | cons a t ih =>
    rw [List.foldl_cons]
    exact ih _ (addIfAbsent_mem_of_mem s a x h)

theorem foldl_addIfAbsent_mem_list (L : List SchemaObject)
    (s : List SchemaObject) (x : SchemaObject) (h : x ∈ L) :
    x ∈ L.foldl addIfAbsent s := by
  induction L generalizing s with
  | nil => cases h
  | cons a t ih =>
    rw [List.foldl_cons]
    rcases List.mem_cons.mp h with h1 | h1
    · subst h1
      exact foldl_addIfAbsent_mem_of_mem t _ x (addIfAbsent_mem_self s x)
    · exact ih _ h1

theorem foldl_addIfAbsent_subset_eq (L : List SchemaObject)
    (s : List SchemaObject) (h : ∀ x ∈ L, x ∈ s) :
    L.foldl addIfAbsent s = s := by
  induction L generalizing s with
  | nil => rfl
  | cons a t ih =>
    rw [List.foldl_cons]
    have ha : addIfAbsent s a = s := by
      simp [addIfAbsent, h a (List.mem_cons_self a t)]
    rw [ha]
    exact ih s fun x hx => h x (List.mem_cons_of_mem a hx)

/-- Re-running an idempotent schema-statement sequence changes nothing. -/
theorem foldl_addIfAbsent_idem (L : List SchemaObject) (s : List SchemaObject) :
    L.foldl addIfAbsent (L.foldl addIfAbsent s) = L.foldl addIfAbsent s :=
  foldl_addIfAbsent_subset_eq L _ fun x hx => foldl_addIfAbsent_mem_list L s x hx

theorem filter_eq_nil_of_false {α : Type} (p : α → Bool) (l : List α)
    (h : ∀ x ∈ l, p x = false) : l.filter p = [] := by
  induction l with
  | nil => rfl
  | cons a t ih =>
    have ha := h a (List.mem_cons_self a t)
    simp only [List.filter, ha]
    exact ih fun x hx => h x (List.mem_cons_of_mem a hx)

/-- A connected Neo4j adapter's `execute_query` either succeeds or fails
with `QueryExecutionFailure`; it never reports `NotConnected`. -/
theorem neo4j_execute_query_connected_ne_notConnected {ρ : Type}
    (d : Neo4jDriver) (q : String) (p : Option Params)
    (bk : String → Params → Except String ρ) (msg : String) :
    ((Neo4jAdapter.mk (some d)).execute_query q p bk).1
      ≠ .error (.notConnected msg) := by
  show (match bk q (pyOrEmpty p) with
    | .ok r => ((.ok r : Except DBError ρ), Neo4jAdapter.mk (some d))
    | .error e =>
      (.error (.queryExecutionFailure ("Error executing Neo4j query: " ++ e)),
        Neo4jAdapter.mk (some d))).1 ≠ .error (.notConnected msg)
  cases bk q (pyOrEmpty p) <;> simp

/-- A connected SurrealDB adapter's `execute_query` either succeeds or
fails with `QueryExecutionFailure`; it never reports `NotConnected`. -/
theorem surreal_execute_query_connected_ne_notConnected {ρ : Type}
    (c : SurrealClient) (ns dbn : Option String) (q : String) (p : Option Params)
    (bk : String → Params → Except String ρ) (msg : String) :
    ((SurrealAdapter.mk (some c) ns dbn).execute_query q p bk).1
      ≠ .error (.notConnected msg) := by
  show (match bk q (pyOrEmpty p) with
    | .ok r => ((.ok r : Except DBError ρ), SurrealAdapter.mk (some c) ns dbn)
    | .error e =>
      (.error (.queryExecutionFailure ("Error executing SurrealDB query: " ++ e)),
        SurrealAdapter.mk (some c) ns dbn)).1 ≠ .error (.notConnected msg)
  cases bk q (pyOrEmpty p) <;> simp

/-- C1: on either adapter in the Disconnected state (handle `none`), every
data operation other than `connect`/`close` — `execute_query`,
`get_driver`, `get_session`, `build_indices`, `clear_all_data`,
`get_episodes`, `get_one_episode` — fails with the `NotConnected` error
and leaves the adapter state (and the database) untouched: no lazy
connect is attempted. -/
theorem C1_disconnected_ops_fail_notConnected {ρ σ : Type}
    (w : Neo4jWorld) (v : SurrealWorld) (ns dbn : Option String)
    (q q2 eid eid2 : String) (p p2 : Option Params) (del del2 : Bool)
    (bk : String → Params → Except String ρ)
    (bk2 : String → Params → Except String σ) :
    ((Neo4jAdapter.mk none).execute_query q p bk
        = (.error (.notConnected "Not connected to Neo4j"), Neo4jAdapter.mk none) ∧
      (Neo4jAdapter.mk none).get_driver
        = (.error (.notConnected "Not connected to Neo4j"), Neo4jAdapter.mk none) ∧
      (Neo4jAdapter.mk none).get_session
        = (.error (.notConnected "Not connected to Neo4j"), Neo4jAdapter.mk none) ∧
      (Neo4jAdapter.mk none).build_indices w del
        = (.error (.notConnected "Not connected to Neo4j"), Neo4jAdapter.mk none, w) ∧
      (Neo4jAdapter.mk none).clear_all_data w
        = (.error (.notConnected "Not connected to Neo4j"), Neo4jAdapter.mk none, w) ∧
      (Neo4jAdapter.mk none).get_episodes w
        = (.error (.notConnected "Not connected to Neo4j"), Neo4jAdapter.mk none) ∧
      (Neo4jAdapter.mk none).get_one_episode w eid
        = (.error (.notConnected "Not connected to Neo4j"), Neo4jAdapter.mk none)) ∧
    ((SurrealAdapter.mk none ns dbn).execute_query q2 p2 bk2
        = (.error (.notConnected "Not connected to SurrealDB"),
            SurrealAdapter.mk none ns dbn) ∧
      (SurrealAdapter.mk none ns dbn).get_driver
        = (.error (.notConnected "Not connected to SurrealDB"),
            SurrealAdapter.mk none ns dbn) ∧
      (SurrealAdapter.mk none ns dbn).get_session
        = (.error (.notConnected "Not connected to SurrealDB"),
            SurrealAdapter.mk none ns dbn) ∧
      (SurrealAdapter.mk none ns dbn).build_indices v del2
        = (.error (.notConnected "Not connected to SurrealDB"),
            SurrealAdapter.mk none ns dbn, v) ∧
      (SurrealAdapter.mk none ns dbn).clear_all_data v
        = (.error (.notConnected "Not connected to SurrealDB"),
            SurrealAdapter.mk none ns dbn, v) ∧
      (SurrealAdapter.mk none ns dbn).get_episodes v
        = (.error (.notConnected "Not connected to SurrealDB"),
            SurrealAdapter.mk none ns dbn) ∧
      (SurrealAdapter.mk none ns dbn).get_one_episode v eid2
        = (.error (.notConnected "Not connected to SurrealDB"),
            SurrealAdapter.mk none ns dbn)) :=
  ⟨⟨rfl, rfl, rfl, rfl, rfl, rfl, rfl⟩, ⟨rfl, rfl, rfl, rfl, rfl, rfl, rfl⟩⟩

/-- C2 counterexample: after a failed `connect` (reachability probe raises
a `DriverError`), the Neo4j adapter does *not* remain Disconnected — the
freshly assigned driver handle is still set, and a subsequent
`execute_query` goes through to the driver instead of failing with
`NotConnected`, contrary to the claim. -/
theorem C2_counterexample_failed_connect_keeps_handle :
    ((Neo4jAdapter.mk none).connect "bolt://localhost:7687" "neo4j" "password"
        (some "probe failed")).1
      = .error (.connectionFailure "Failed to connect to Neo4j: probe failed") ∧
    ((Neo4jAdapter.mk none).connect "bolt://localhost:7687" "neo4j" "password"
        (some "probe failed")).2.driver
      = some ⟨"bolt://localhost:7687", "neo4j", "password"⟩ ∧
    (((Neo4jAdapter.mk none).connect "bolt://localhost:7687" "neo4j" "password"
        (some "probe failed")).2.execute_query "RETURN 1" none
        (fun _ _ => .ok (1 : Nat))).1
      = .ok 1 :=
  ⟨rfl, rfl, rfl⟩

/-- C2 as amended: when `connect` fails (probe `DriverError` for Neo4j;
signin failure, or signin success followed by a failing `use`, for
SurrealDB), the call raises `ConnectionFailure`, but the adapter retains
the freshly assigned handle instead of returning to Disconnected, so a
subsequent data operation does not fail with `NotConnected`; the adapter
stays reusable — a later successful `connect` simply overwrites the
handle. -/
theorem C2_amended_connect_failure (a : Neo4jAdapter) (uri u pw msg : String)
    (b : SurrealAdapter) (uri2 u2 pw2 ns dbn msg2 : String)
    (useErr : Option String) :
    ((a.connect uri u pw (some msg)).1
        = .error (.connectionFailure ("Failed to connect to Neo4j: " ++ msg)) ∧
      (a.connect uri u pw (some msg)).2.driver = some ⟨uri, u, pw⟩ ∧
      (∀ (ρ : Type) (q : String) (p : Option Params)
          (bk : String → Params → Except String ρ),
        ((a.connect uri u pw (some msg)).2.execute_query q p bk).1
          ≠ .error (.notConnected "Not connected to Neo4j")) ∧
      (∀ uri3 u3 pw3 : String,
        (a.connect uri u pw (some msg)).2.connect uri3 u3 pw3 none
          = (.ok (), Neo4jAdapter.mk (some ⟨uri3, u3, pw3⟩)))) ∧
    ((b.connect uri2 u2 pw2 ns dbn (some msg2) useErr).1
        = .error (.connectionFailure
            ("Failed to connect to SurrealDB: Failed to connect to SurrealDB: "
              ++ msg2)) ∧
      (b.connect uri2 u2 pw2 ns dbn (some msg2) useErr).2.client = some ⟨uri2⟩ ∧
      (∀ (σ : Type) (q : String) (p : Option Params)
          (bk2 : String → Params → Except String σ),
        ((b.connect uri2 u2 pw2 ns dbn (some msg2) useErr).2.execute_query q p bk2).1
          ≠ .error (.notConnected "Not connected to SurrealDB")) ∧
      (∀ uri3 u3 pw3 ns3 dbn3 : String,
        (b.connect uri2 u2 pw2 ns dbn (some msg2) useErr).2.connect
            uri3 u3 pw3 ns3 dbn3 none none
          = (.ok (), SurrealAdapter.mk (some ⟨uri3⟩) (some ns3) (some dbn3)))) ∧
    ((b.connect uri2 u2 pw2 ns dbn none (some msg2)).1
        = .error (.connectionFailure
            ("Failed to connect to SurrealDB: Failed to connect to SurrealDB: "
              ++ msg2)) ∧
      (b.connect uri2 u2 pw2 ns dbn none (some msg2)).2.client = some ⟨uri2⟩ ∧
      (∀ (τ : Type) (q : String) (p : Option Params)
          (bk3 : String → Params → Except String τ),
        ((b.connect uri2 u2 pw2 ns dbn none (some msg2)).2.execute_query q p bk3).1
          ≠ .error (.notConnected "Not connected to SurrealDB")) ∧
      (∀ uri3 u3 pw3 ns3 dbn3 : String,
        (b.connect uri2 u2 pw2 ns dbn none (some msg2)).2.connect
            uri3 u3 pw3 ns3 dbn3 none none
          = (.ok (), SurrealAdapter.mk (some ⟨uri3⟩) (some ns3) (some dbn3)))) :=
  ⟨⟨rfl, rfl,
    fun ρ q p bk => neo4j_execute_query_connected_ne_notConnected _ q p bk _,
    fun _ _ _ => rfl⟩,
   ⟨rfl, rfl,
    fun σ q p bk2 =>
      surreal_execute_query_connected_ne_notConnected _ _ _ q p bk2 _,
    fun _ _ _ _ _ => rfl⟩,
   ⟨rfl, rfl,
    fun τ q p bk3 =>
      surreal_execute_query_connected_ne_notConnected _ _ _ q p bk3 _,
    fun _ _ _ _ _ => rfl⟩⟩

/-- C3 counterexample: the factory matches tags case-sensitively — given
the tag `"NEO4J"` both operations fail with `UnsupportedBackend` instead
of returning the Neo4j adapter / its class as the claim ("in any letter
case") requires. -/
theorem C3_counterexample_uppercase_tag :
    DatabaseFactory.create_db_adapter "NEO4J"
      = .error (.unsupportedBackend "Unsupported database type: NEO4J") ∧
    DatabaseFactory.get_adapter_class "NEO4J"
      = .error (.unsupportedBackend "Unsupported database type: NEO4J") := by
  refine ⟨?_, ?_⟩ <;> simp [DatabaseFactory.create_db_adapter,
    DatabaseFactory.get_adapter_class]

/-- C3 as amended: the factory matches tags case-sensitively.  Given
exactly `"neo4j"` it returns a freshly constructed (disconnected) Neo4j
adapter / its class, given exactly `"surrealdb"` a fresh SurrealDB adapter
/ its class, and for every other string — including other letter cases and
`"mongo"` — both operations fail with `UnsupportedBackend`.
(Case-insensitivity lives in the configuration layers, which lowercase the
selector before reaching the factory.) -/
theorem C3_amended_factory_case_sensitive (t : String)
    (h1 : t ≠ "neo4j") (h2 : t ≠ "surrealdb") :
    DatabaseFactory.create_db_adapter "neo4j" = .ok (.neo4j ⟨none⟩) ∧
    DatabaseFactory.create_db_adapter "surrealdb"
      = .ok (.surreal ⟨none, none, none⟩) ∧
    DatabaseFactory.get_adapter_class "neo4j" = .ok .neo4jClass ∧
    DatabaseFactory.get_adapter_class "surrealdb" = .ok .surrealClass ∧
    DatabaseFactory.create_db_adapter t
      = .error (.unsupportedBackend ("Unsupported database type: " ++ t)) ∧
    DatabaseFactory.get_adapter_class t
      = .error (.unsupportedBackend ("Unsupported database type: " ++ t)) := by
  refine ⟨rfl, rfl, rfl, rfl, ?_, ?_⟩ <;>
    simp [DatabaseFactory.create_db_adapter, DatabaseFactory.get_adapter_class,
      h1, h2]

theorem C3_amended_factory_case_sensitive_witness :
    ("mongo" ≠ "neo4j" ∧ "mongo" ≠ "surrealdb") ∧
    DatabaseFactory.create_db_adapter "mongo"
      = .error (.unsupportedBackend "Unsupported database type: mongo") ∧
    DatabaseFactory.get_adapter_class "mongo"
      = .error (.unsupportedBackend "Unsupported database type: mongo") :=
  ⟨⟨by decide, by decide⟩,
    (C3_amended_factory_case_sensitive "mongo" (by decide) (by decide)).2.2.2.2.1,
    (C3_amended_factory_case_sensitive "mongo" (by decide) (by decide)).2.2.2.2.2⟩

/-- C4 counterexample: the two backends do not provision identical schema
objects — the Neo4j adapter issues an explicit not-null constraint on
`Message.timestamp` (and `Episode.created_at`) and the SurrealDB adapter
issues none. -/
theorem C4_counterexample_notNull_divergence :
    SchemaObject.notNull "Message" "timestamp" ∈ neo4jSchemaObjects ∧
    SchemaObject.notNull "Message" "timestamp" ∉ surrealSchemaObjects ∧
    (fieldDeclPairs surrealSchemaObjects ≠ notNullPairs neo4jSchemaObjects) := by
  refine ⟨by decide, by decide, by decide⟩

/-- C4 as amended: the uniqueness constraints (`id` on Episode, Message,
Entity) and the secondary indices (`Episode.created_at`,
`Message.timestamp`, `Message.role`, `Entity.type`, `Entity.name`) are
provisioned identically by both backends, but the not-null provisioning
differs: the Neo4j backend declares explicit not-null constraints on
exactly `Message.timestamp` and `Episode.created_at`, while the SurrealDB
backend declares no not-null constraint at all, instead declaring typed
(non-optional) field definitions on all twelve fields of the three entity
tables — a different field set under either reading of those
declarations.  So the provisioned schema-object sets are not identical. -/
theorem C4_amended_schema_comparison :
    uniquePairs neo4jSchemaObjects = uniquePairs surrealSchemaObjects ∧
    indexPairs neo4jSchemaObjects = indexPairs surrealSchemaObjects ∧
    notNullPairs neo4jSchemaObjects
      = [("Message", "timestamp"), ("Episode", "created_at")] ∧
    notNullPairs surrealSchemaObjects = [] ∧
    fieldDeclPairs surrealSchemaObjects
      = [("Episode", "id"), ("Episode", "created_at"), ("Episode", "title"),
          ("Episode", "summary"), ("Message", "id"), ("Message", "timestamp"),
          ("Message", "role"), ("Message", "content"), ("Entity", "id"),
          ("Entity", "type"), ("Entity", "name"), ("Entity", "properties")] ∧
    fieldDeclPairs neo4jSchemaObjects = [] := by
  refine ⟨by decide, by decide, by decide, by decide, by decide, by decide⟩

/-- C5: for a connected adapter of either backend, `build_indices` with
`delete_existing = false` is idempotent — the first invocation succeeds,
and a second invocation returns the very same outcome (no error, same
adapter state, same provisioned schema objects and data). -/
theorem C5_build_indices_idempotent (d : Neo4jDriver) (w : Neo4jWorld)
    (c : SurrealClient) (ns dbn : Option String) (v : SurrealWorld) :
    ((Neo4jAdapter.mk (some d)).build_indices w false).1 = .ok () ∧
    (((Neo4jAdapter.mk (some d)).build_indices w false).2.1.build_indices
        ((Neo4jAdapter.mk (some d)).build_indices w false).2.2 false
      = (Neo4jAdapter.mk (some d)).build_indices w false) ∧
    ((SurrealAdapter.mk (some c) ns dbn).build_indices v false).1 = .ok () ∧
    (((SurrealAdapter.mk (some c) ns dbn).build_indices v false).2.1.build_indices
        ((SurrealAdapter.mk (some c) ns dbn).build_indices v false).2.2 false
      = (SurrealAdapter.mk (some c) ns dbn).build_indices v false) := by
  refine ⟨rfl, ?_, rfl, ?_⟩
  · simp [Neo4jAdapter.build_indices, foldl_addIfAbsent_idem]
  · simp [SurrealAdapter.build_indices, foldl_addIfAbsent_idem]

/-- C6: on a connected adapter of either backend, a failed `execute_query`
raises `QueryExecutionFailure` whose message wraps (ends with, hence
contains) the original backend error message, and the adapter state is
completely unchanged — still Connected with the same handle, so the caller
can retry without reconnecting. -/
theorem C6_query_failure_wraps_message_keeps_connection {ρ σ : Type}
    (d : Neo4jDriver) (q : String) (p : Option Params)
    (bk : String → Params → Except String ρ) (e : String)
    (hbk : bk q (pyOrEmpty p) = .error e)
    (c : SurrealClient) (ns dbn : Option String) (q2 : String)
    (p2 : Option Params) (bk2 : String → Params → Except String σ) (e2 : String)
    (hbk2 : bk2 q2 (pyOrEmpty p2) = .error e2) :
    ((Neo4jAdapter.mk (some d)).execute_query q p bk
        = (.error (.queryExecutionFailure ("Error executing Neo4j query: " ++ e)),
            Neo4jAdapter.mk (some d)) ∧
      (∃ pre, "Error executing Neo4j query: " ++ e = pre ++ e)) ∧
    ((SurrealAdapter.mk (some c) ns dbn).execute_query q2 p2 bk2
        = (.error (.queryExecutionFailure
              ("Error executing SurrealDB query: " ++ e2)),
            SurrealAdapter.mk (some c) ns dbn) ∧
      (∃ pre, "Error executing SurrealDB query: " ++ e2 = pre ++ e2)) := by
  refine ⟨⟨?_, ⟨"Error executing Neo4j query: ", rfl⟩⟩,
    ⟨?_, ⟨"Error executing SurrealDB query: ", rfl⟩⟩⟩
  · simp [Neo4jAdapter.execute_query, hbk]
  · simp [SurrealAdapter.execute_query, hbk2]

theorem C6_query_failure_wraps_message_keeps_connection_witness :
    ((fun _ _ => Except.error "boom" : String → Params → Except String Nat)
        "RETURN 1" (pyOrEmpty none) = .error "boom") ∧
    ((fun _ _ => Except.error "bang" : String → Params → Except String Nat)
        "SELECT * FROM Episode" (pyOrEmpty none) = .error "bang") ∧
    ((Neo4jAdapter.mk (some testDriver)).execute_query "RETURN 1" none
        (fun _ _ => Except.error "boom" : String → Params → Except String Nat)
      = (.error (.queryExecutionFailure
            ("Error executing Neo4j query: " ++ "boom")),
          Neo4jAdapter.mk (some testDriver))) ∧
    ((SurrealAdapter.mk (some testClient) (some "graphiti") (some "graphiti")).execute_query
        "SELECT * FROM Episode" none
        (fun _ _ => Except.error "bang" : String → Params → Except String Nat)
      = (.error (.queryExecutionFailure
            ("Error executing SurrealDB query: " ++ "bang")),
          SurrealAdapter.mk (some testClient) (some "graphiti") (some "graphiti"))) :=
  ⟨rfl, rfl,
    (C6_query_failure_wraps_message_keeps_connection testDriver "RETURN 1" none
      (fun _ _ => Except.error "boom" : String → Params → Except String Nat)
      "boom" rfl testClient (some "graphiti") (some "graphiti")
      "SELECT * FROM Episode" none
      (fun _ _ => Except.error "bang" : String → Params → Except String Nat)
      "bang" rfl).1.1,
    (C6_query_failure_wraps_message_keeps_connection testDriver "RETURN 1" none
      (fun _ _ => Except.error "boom" : String → Params → Except String Nat)
      "boom" rfl testClient (some "graphiti") (some "graphiti")
      "SELECT * FROM Episode" none
      (fun _ _ => Except.error "bang" : String → Params → Except String Nat)
      "bang" rfl).2.1⟩

/-- C7: on a connected adapter of either backend, `get_one_episode` for an
`episode_id` matching no stored Episode returns the explicit not-found
result `ok none` and never raises; moreover the SurrealDB unwrap step
yields the not-found result at each absence shape — empty envelope,
missing `result` key, and empty inner array. -/
theorem C7_get_one_episode_not_found (d : Neo4jDriver) (w : Neo4jWorld)
    (c : SurrealClient) (ns dbn : Option String) (v : SurrealWorld)
    (eid : String)
    (hno : ∀ e ∈ w.episodes, e.id ≠ eid)
    (hno2 : ∀ e ∈ v.episodeTable.getD [], e.id ≠ eid) :
    (Neo4jAdapter.mk (some d)).get_one_episode w eid
      = (.ok none, Neo4jAdapter.mk (some d)) ∧
    (SurrealAdapter.mk (some c) ns dbn).get_one_episode v eid
      = (.ok none, SurrealAdapter.mk (some c) ns dbn) ∧
    unwrapOneEpisode [] = none ∧
    unwrapOneEpisode [⟨none⟩] = none ∧
    unwrapOneEpisode [⟨some []⟩] = none := by
  have hfil : (w.episodes.filter fun e => e.id == eid) = [] :=
    filter_eq_nil_of_false _ _ fun e he => by
      rw [beq_eq_false_iff_ne]
      exact hno e he
  have hfil2 : ((v.episodeTable.getD []).filter fun e => e.id == eid) = [] :=
    filter_eq_nil_of_false _ _ fun e he => by
      rw [beq_eq_false_iff_ne]
      exact hno2 e he
  refine ⟨?_, ?_, rfl, rfl, rfl⟩
  · simp [Neo4jAdapter.get_one_episode, neo4jOneEpisodeRows, hfil]
  · simp [SurrealAdapter.get_one_episode, surrealSelectOneEpisode,
      unwrapOneEpisode, hfil2]

theorem C7_get_one_episode_not_found_witness :
    (∀ e ∈ [testEpisode], e.id ≠ "does-not-exist") ∧
    ((Neo4jAdapter.mk (some testDriver)).get_one_episode
        ⟨[testEpisode], []⟩ "does-not-exist"
      = (.ok none, Neo4jAdapter.mk (some testDriver))) ∧
    ((SurrealAdapter.mk (some testClient) (some "graphiti") (some "graphiti")).get_one_episode
        ⟨some [testEpisode], []⟩ "does-not-exist"
      = (.ok none,
          SurrealAdapter.mk (some testClient) (some "graphiti") (some "graphiti"))) :=
  ⟨by decide,
    (C7_get_one_episode_not_found testDriver ⟨[testEpisode], []⟩ testClient
      (some "graphiti") (some "graphiti") ⟨some [testEpisode], []⟩
      "does-not-exist" (by decide) (by decide)).1,
    (C7_get_one_episode_not_found testDriver ⟨[testEpisode], []⟩ testClient
      (some "graphiti") (some "graphiti") ⟨some [testEpisode], []⟩
      "does-not-exist" (by decide) (by decide)).2.1⟩

/-- C8: on a connected adapter of either backend and for every database
state, `clear_all_data` succeeds and a following `get_episodes` returns
the empty sequence. -/
theorem C8_clear_then_get_episodes_empty (d : Neo4jDriver) (w : Neo4jWorld)
    (c : SurrealClient) (ns dbn : Option String) (v : SurrealWorld) :
    ((Neo4jAdapter.mk (some d)).clear_all_data w).1 = .ok () ∧
    (((Neo4jAdapter.mk (some d)).clear_all_data w).2.1.get_episodes
        ((Neo4jAdapter.mk (some d)).clear_all_data w).2.2).1 = .ok [] ∧
    ((SurrealAdapter.mk (some c) ns dbn).clear_all_data v).1 = .ok () ∧
    (((SurrealAdapter.mk (some c) ns dbn).clear_all_data v).2.1.get_episodes
        ((SurrealAdapter.mk (some c) ns dbn).clear_all_data v).2.2).1 = .ok [] :=
  ⟨rfl, rfl, rfl, rfl⟩

/-- C9: `close` is idempotent on either adapter: it always succeeds,
leaves the adapter Disconnected (handle `none`), closing again is a no-op
that does not raise, and closing a never-connected adapter is likewise a
no-op. -/
theorem C9_close_idempotent (a : Neo4jAdapter) (b : SurrealAdapter) :
    (a.close.1 = .ok () ∧
      a.close.2.driver = none ∧
      a.close.2.close = (.ok (), a.close.2) ∧
      (Neo4jAdapter.mk none).close = (.ok (), Neo4jAdapter.mk none)) ∧
    (b.close.1 = .ok () ∧
      b.close.2.client = none ∧
      b.close.2.close = (.ok (), b.close.2) ∧
      (∀ ns2 dbn2 : Option String,
        (SurrealAdapter.mk none ns2 dbn2).close
          = (.ok (), SurrealAdapter.mk none ns2 dbn2))) := by
  obtain ⟨dr⟩ := a
  obtain ⟨cl, ns, dbn⟩ := b
  cases dr <;> cases cl <;>
    exact ⟨⟨rfl, rfl, rfl, rfl⟩, ⟨rfl, rfl, rfl, fun _ _ => rfl⟩⟩

/-- C10: on either adapter, `execute_query` with the parameters argument
passed as `None` behaves identically — same result, same error behaviour,
same resulting state — to passing the empty parameter map, because
`params = parameters or {}` collapses both to the empty dict.  (This holds
for every adapter state, in particular every connected one.) -/
theorem C10_none_params_eq_empty_params {ρ σ : Type}
    (a : Neo4jAdapter) (q : String) (bk : String → Params → Except String ρ)
    (b : SurrealAdapter) (q2 : String) (bk2 : String → Params → Except String σ) :
    a.execute_query q none bk = a.execute_query q (some []) bk ∧
    b.execute_query q2 none bk2 = b.execute_query q2 (some []) bk2 :=
  ⟨rfl, rfl⟩

end GraphitiDB
